import Mathlib

/-!
Shallow embedding of the tpx TCP port forwarder (src/main.rs) and proofs of
the specified properties. I/O nondeterminism (connect results, setsockopt
failures, copy outcomes, which copy direction finishes first) is passed in
explicitly as an environment; log output is modelled as a list of structured
events, one constructor per log site in the source.
-/

set_option autoImplicit false

deriving instance DecidableEq for Except

/-- Severity level of a log message (log::info! versus log::error!). -/
inductive Level where
  | info
  | error
deriving DecidableEq

/-- An I/O error, abstracted by its display string. -/
abbrev IoError := String

/-- A socket address, abstracted by its textual form. -/
abbrev Addr := String

/-- Command-line options: struct Opt in main.rs. -/
structure Opt where
  source : Addr
  dest : Addr
  nodelay : Bool
  keepalive : Nat
deriving DecidableEq

/-- Construction of Opt by the structopt layer: nodelay is a bare flag, so it
is false exactly when the flag is absent; keepalive carries
default_value 30 when the argument is absent. -/
def optFromArgs (source dest : Addr) (nodelayFlag : Bool)
    (keepaliveArg : Option Nat) : Opt :=
  { source := source, dest := dest, nodelay := nodelayFlag,
    keepalive := keepaliveArg.getD 30 }

/-- Keepalive interval selection, fn keepalive in main.rs: 0 means disabled
(none), any other value means enabled with that many seconds. -/
def keepalive (secs : Nat) : Option Nat :=
  match secs with
  | 0 => none
  | s => some s

/-- Structured log events, one constructor per log call site in main.rs. -/
inductive LogEvent where
  | starting (cfg : Opt)
  | sockoptError (e : IoError)
  | connected (addr : String)
  | disconnected (addr : String)
  | disconnectedWithError (e : IoError) (addr : String)
  | shutdown
  | shutdownWithError (e : IoError)
deriving DecidableEq

/-- Level at which each event is logged in main.rs. -/
def LogEvent.level : LogEvent → Level
  | .starting _ => .info
  | .sockoptError _ => .error
  | .connected _ => .info
  | .disconnected _ => .info
  | .disconnectedWithError _ _ => .error
  | .shutdown => .info
  | .shutdownWithError _ => .error

/-- Observable option state of a TCP socket: the last successfully applied
value of each of the two options, if any was ever applied. -/
structure SockState where
  kaSet : Option (Option Nat)
  ndSet : Option Bool
deriving DecidableEq

/-- A freshly established socket, with no option applied yet. -/
def SockState.fresh : SockState := { kaSet := none, ndSet := none }

/-- Fault injection for the two fallible setsockopt calls of one sockopt
invocation: some e means that call fails with error e. -/
structure SockFaults where
  kaErr : Option IoError
  ndErr : Option IoError
deriving DecidableEq

/-- The fault-free case: both setsockopt calls succeed. -/
def SockFaults.ok : SockFaults := { kaErr := none, ndErr := none }

/-- Model of TcpStream::set_keepalive: applies the value, or fails with the
injected fault leaving the socket state unchanged. -/
def setKeepalive (s : SockState) (v : Option Nat) (fault : Option IoError) :
    SockState × Except IoError Unit :=
  match fault with
  | some e => (s, .error e)
  | none => ({ s with kaSet := some v }, .ok ())

/-- Model of TcpStream::set_nodelay: applies the value, or fails with the
injected fault leaving the socket state unchanged. -/
def setNodelay (s : SockState) (v : Bool) (fault : Option IoError) :
    SockState × Except IoError Unit :=
  match fault with
  | some e => (s, .error e)
  | none => ({ s with ndSet := some v }, .ok ())

/-- Model of .unwrap_or_else with an error! body: an error becomes a log
event and nothing else. -/
def logIfErr (r : Except IoError Unit) : List LogEvent :=
  match r with
  | .ok _ => []
  | .error e => [.sockoptError e]

/-- fn sockopt in main.rs: set keepalive (from the configured interval) and
then nodelay, logging and otherwise ignoring each failure; returns the new
socket state and the emitted log events, and has no error result. -/
def sockopt (sock : SockState) (cfg : Opt) (f : SockFaults) :
    SockState × List LogEvent :=
  let r1 := setKeepalive sock (keepalive cfg.keepalive) f.kaErr
  let r2 := setNodelay r1.1 cfg.nodelay f.ndErr
  (r2.1, logIfErr r1.2 ++ logIfErr r2.2)

/-- fn peer in main.rs: the displayed peer address on success, or the
literal sentinel on failure. -/
def peer (peerAddr : Except IoError Addr) : String :=
  match peerAddr with
  | .ok p => p
  | .error _ => "<unknown>"

/-- The four connection halves produced by splitting the inbound (src) and
outbound (dst) connections. -/
inductive Half where
  | srcRead
  | srcWrite
  | dstRead
  | dstWrite
deriving DecidableEq

/-- One io::copy operation, identified by its reader and writer halves. -/
structure Copy where
  reader : Half
  writer : Half
deriving DecidableEq

/-- Which of the two racing copy operations finishes first. -/
inductive First where
  | up
  | down
deriving DecidableEq

/-- Environment of one forwarding session: all nondeterminism the operating
system supplies to fn fwd. Each copy outcome is the eventual result that
io::copy would report for that direction if it were allowed to finish:
ok with a byte count at end-of-stream, or an I/O error. -/
structure SessionEnv where
  srcFaults : SockFaults
  connect : Except IoError Unit
  dstFaults : SockFaults
  upOutcome : Except IoError Nat
  downOutcome : Except IoError Nat
  first : First
deriving DecidableEq

/-- The outcome of whichever copy finishes first. -/
def SessionEnv.firstOutcome (env : SessionEnv) : Except IoError Nat :=
  match env.first with
  | .up => env.upOutcome
  | .down => env.downOutcome

/-- Observable trace of one forwarding session: its result, the log events
it emitted, the copy operations it created, whether each connection ended
closed, and the final socket option states. -/
structure SessionTrace where
  result : Except IoError Unit
  logs : List LogEvent
  copies : List Copy
  srcClosed : Bool
  dstClosed : Bool
  srcSock : SockState
  dstSock : Option SockState
deriving DecidableEq

/-- fn fwd in main.rs: apply options to the inbound socket, connect to
cfg.dest (and_then, so a connect error short-circuits as the session
result), apply options to the outbound socket, split both connections,
create the up (srcRead to dstWrite) and down (dstRead to srcWrite) copies,
and race them with select: the session result is the first finisher mapped
through map to unit and map_err to the bare error. Both connections are
owned by the session future, hence dropped (closed) on every path. -/
def fwd (srcSock : SockState) (cfg : Opt) (env : SessionEnv) : SessionTrace :=
  let s1 := sockopt srcSock cfg env.srcFaults
  match env.connect with
  | .error e =>
    { result := .error e, logs := s1.2, copies := [],
      srcClosed := true, dstClosed := true,
      srcSock := s1.1, dstSock := none }
  | .ok _ =>
    let d1 := sockopt SockState.fresh cfg env.dstFaults
    let upCp : Copy := { reader := .srcRead, writer := .dstWrite }
    let downCp : Copy := { reader := .dstRead, writer := .srcWrite }
    let res : Except IoError Unit :=
      match env.firstOutcome with
      | .ok _ => .ok ()
      | .error e => .error e
    { result := res, logs := s1.2 ++ d1.2, copies := [upCp, downCp],
      srcClosed := true, dstClosed := true,
      srcSock := s1.1, dstSock := some d1.1 }

/-- One accepted inbound connection together with its nondeterministic
environment: the result of peer_addr retrieval, the initial option state of
the accepted socket, and the session environment. -/
structure Inbound where
  peerAddr : Except IoError Addr
  sock : SockState
  env : SessionEnv
deriving DecidableEq

/-- The per-connection future built inside the incoming().map closure in
main.rs: log connected, run fwd, then turn either session result into an
Ok-wrapped log line. Returns the emitted log events and the value the
future yields into the listener stream, which is Ok on both match arms. -/
def handleConn (cfg : Opt) (c : Inbound) : List LogEvent × Except IoError Unit :=
  let addr := peer c.peerAddr
  let t := fwd c.sock cfg c.env
  let last : LogEvent :=
    match t.result with
    | .ok _ => .disconnected addr
    | .error e => .disconnectedWithError e addr
  (.connected addr :: (t.logs ++ [last]), .ok ())

/-- Observable trace of the whole process: log events and the exit code. -/
structure ProcessTrace where
  logs : List LogEvent
  exitCode : Nat
deriving DecidableEq

/-- fn main in main.rs: log startup, bind the source address, and either
run the accept loop (each accepted connection handled by handleConn, the
stream ending with the Shutdown log) or, on a bind error, log shutdown
with error via map_err. The error is mapped to unit before tokio::run, and
the Rust main returns unit, so the process exit code is 0 on every path. -/
def mainRun (cfg : Opt) (bind : Except IoError Unit) (conns : List Inbound) :
    ProcessTrace :=
  match bind with
  | .error e => { logs := [.starting cfg, .shutdownWithError e], exitCode := 0 }
  | .ok _ =>
    let connLogs := conns.flatMap (fun c => (handleConn cfg c).1)
    { logs := .starting cfg :: (connLogs ++ [.shutdown]), exitCode := 0 }

/-- Example configuration used by the concrete witnesses below. -/
def cfgEx : Opt :=
  { source := "127.0.0.1:9000", dest := "127.0.0.1:9001",
    nodelay := true, keepalive := 0 }

/-- Example session environment: the outbound connect succeeds and the
first-finishing copy (up) ends with an I/O error. -/
def envOkEx : SessionEnv :=
  { srcFaults := SockFaults.ok, connect := .ok (),
    dstFaults := SockFaults.ok,
    upOutcome := .error "connection reset", downOutcome := .ok 5,
    first := .up }

/-- Example session environment: the outbound connect fails. -/
def envErrEx : SessionEnv :=
  { srcFaults := SockFaults.ok, connect := .error "connection refused",
    dstFaults := SockFaults.ok,
    upOutcome := .ok 0, downOutcome := .ok 0, first := .up }

/-- C1: in a session whose outbound connect succeeds, the session result is
determined by the first-finishing copy alone: success when that copy ended
at end-of-stream, exactly its I/O error when it ended with an error; and
the result does not depend on the outcome of the other, losing direction. -/
theorem fwd_race_result (s : SockState) (cfg : Opt) (env : SessionEnv)
    (hc : env.connect = .ok ()) :
    ((∀ n, env.firstOutcome = .ok n → (fwd s cfg env).result = .ok ()) ∧
     (∀ e, env.firstOutcome = .error e → (fwd s cfg env).result = .error e)) ∧
    (∀ o, (fwd s cfg
      (match env.first with
       | .up => { env with downOutcome := o }
       | .down => { env with upOutcome := o })).result
        = (fwd s cfg env).result) := by
  refine ⟨⟨?_, ?_⟩, ?_⟩
  · intro n h
    simp [fwd, hc, h]
  · intro e h
    simp [fwd, hc, h]
  · intro o
    cases hf : env.first <;>
      simp [fwd, hc, SessionEnv.firstOutcome, hf]

/-- C1 witness: in the concrete environment envOkEx the up copy finishes
first with an error, and the session result is exactly that error. -/
theorem fwd_race_result_witness :
    (fwd SockState.fresh cfgEx envOkEx).result = .error "connection reset" :=
  (fwd_race_result SockState.fresh cfgEx envOkEx rfl).1.2 "connection reset" rfl

/-- C6: when the outbound connect fails, the session result is exactly that
connect error, no copy operation is created, no outbound socket exists, and
the inbound connection is still closed. -/
theorem fwd_connect_failure (s : SockState) (cfg : Opt) (env : SessionEnv)
    (e : IoError) (hc : env.connect = .error e) :
    (fwd s cfg env).result = .error e ∧
    (fwd s cfg env).copies = [] ∧
    (fwd s cfg env).dstSock = none ∧
    (fwd s cfg env).srcClosed = true := by
  simp [fwd, hc]

/-- C6 witness: concrete failed-connect session. -/
theorem fwd_connect_failure_witness :
    (fwd SockState.fresh cfgEx envErrEx).result = .error "connection refused" ∧
    (fwd SockState.fresh cfgEx envErrEx).copies = [] ∧
    (fwd SockState.fresh cfgEx envErrEx).srcClosed = true := by
  have h := fwd_connect_failure SockState.fresh cfgEx envErrEx "connection refused" rfl
  exact ⟨h.1, h.2.1, h.2.2.2⟩

/-- C7: after a successful outbound connect the session has created exactly
two copies, upstream reading the inbound read half into the outbound write
half and downstream reading the outbound read half into the inbound write
half; on a failed connect no copy exists (so copies are created only after
the connect completed); and the created copies do not depend on which
direction finishes first. -/
theorem fwd_two_copies (s : SockState) (cfg : Opt) (env : SessionEnv) :
    (env.connect = .ok () →
      (fwd s cfg env).copies =
        [{ reader := .srcRead, writer := .dstWrite },
         { reader := .dstRead, writer := .srcWrite }]) ∧
    (∀ e, env.connect = .error e → (fwd s cfg env).copies = []) ∧
    (∀ f, (fwd s cfg { env with first := f }).copies = (fwd s cfg env).copies) := by
  refine ⟨?_, ?_, ?_⟩
  · intro h
    simp [fwd, h]
  · intro e h
    simp [fwd, h]
  · intro f
    cases hc : env.connect <;> simp [fwd, hc]

/-- C7 witness: the concrete successful session creates the upstream and
downstream copies. -/
theorem fwd_two_copies_witness :
    (fwd SockState.fresh cfgEx envOkEx).copies =
      [{ reader := .srcRead, writer := .dstWrite },
       { reader := .dstRead, writer := .srcWrite }] :=
  (fwd_two_copies SockState.fresh cfgEx envOkEx).1 rfl

/-- Helper: logIfErr only ever produces sockoptError events. -/
theorem logIfErr_shape (r : Except IoError Unit) :
    ∀ x ∈ logIfErr r, ∃ e, x = LogEvent.sockoptError e := by
  intro x hx
  cases r <;> simp [logIfErr] at hx
  exact ⟨_, hx⟩

/-- Helper: sockopt only ever logs sockoptError events. -/
theorem sockopt_logs_shape (s : SockState) (cfg : Opt) (f : SockFaults) :
    ∀ x ∈ (sockopt s cfg f).2, ∃ e, x = LogEvent.sockoptError e := by
  intro x hx
  simp only [sockopt, List.mem_append] at hx
  rcases hx with h | h
  · exact logIfErr_shape _ x h
  · exact logIfErr_shape _ x h

/-- Helper: a forwarding session only ever logs sockoptError events. -/
theorem fwd_logs_shape (s : SockState) (cfg : Opt) (env : SessionEnv) :
    ∀ x ∈ (fwd s cfg env).logs, ∃ e, x = LogEvent.sockoptError e := by
  intro x hx
  cases hc : env.connect <;> simp [fwd, hc] at hx
  · exact sockopt_logs_shape s cfg env.srcFaults x hx
  · rcases hx with h | h
    · exact sockopt_logs_shape _ _ _ x h
    · exact sockopt_logs_shape _ _ _ x h

/-- Helper: a per-connection future never logs the fatal shutdown events. -/
theorem handleConn_no_shutdown_err (cfg : Opt) (c : Inbound) (e : IoError) :
    LogEvent.shutdownWithError e ∉ (handleConn cfg c).1 := by
  intro hx
  cases hr : (fwd c.sock cfg c.env).result <;> simp [handleConn, hr] at hx <;>
    obtain ⟨e2, he⟩ := fwd_logs_shape c.sock cfg c.env _ hx <;>
      exact LogEvent.noConfusion he

/-- C2 counterexample: on a concrete failed bind the error is logged, but
the process exit status is 0, not nonzero: main.rs maps the listener error
to unit (after logging it) before handing the future to the executor, and
the Rust main returns unit, so the process exits 0. -/
theorem mainRun_bind_fail_exit_zero :
    (mainRun cfgEx (.error "address in use") []).exitCode = 0 ∧
    (mainRun cfgEx (.error "address in use") []).logs =
      [.starting cfgEx, .shutdownWithError "address in use"] :=
  ⟨rfl, rfl⟩

/-- C2 amended: if binding the source address fails, the process logs the
error and terminates with exit status 0 (not a nonzero status); when the
process stops gracefully it also exits with status 0. -/
theorem mainRun_exit_status (cfg : Opt) (bind : Except IoError Unit)
    (conns : List Inbound) :
    (mainRun cfg bind conns).exitCode = 0 ∧
    (∀ e, bind = .error e →
      LogEvent.shutdownWithError e ∈ (mainRun cfg bind conns).logs) := by
  refine ⟨?_, ?_⟩
  · cases bind <;> simp [mainRun]
  · intro e h
    simp [mainRun, h]

/-- C2 amended witness: concrete failed bind, logged and exit status 0. -/
theorem mainRun_exit_status_witness :
    (mainRun cfgEx (.error "eaddrinuse") []).exitCode = 0 ∧
    LogEvent.shutdownWithError "eaddrinuse" ∈
      (mainRun cfgEx (.error "eaddrinuse") []).logs :=
  ⟨(mainRun_exit_status cfgEx (.error "eaddrinuse") []).1,
   (mainRun_exit_status cfgEx (.error "eaddrinuse") []).2 "eaddrinuse" rfl⟩

/-- C3: per-session errors are contained to the session: the value each
session future hands to the listener stream is Ok whatever the session
result was, a connect or copy error surfaces as a disconnectedWithError
log event, and with a successful bind the process still ends with the
clean Shutdown event and exit status 0 whatever every session did; the
fatal shutdownWithError event never appears without a bind error. -/
theorem session_error_containment (cfg : Opt) (c : Inbound) (conns : List Inbound) :
    (handleConn cfg c).2 = .ok () ∧
    (∀ e, (fwd c.sock cfg c.env).result = .error e →
      LogEvent.disconnectedWithError e (peer c.peerAddr) ∈ (handleConn cfg c).1) ∧
    (mainRun cfg (.ok ()) conns).exitCode = 0 ∧
    (mainRun cfg (.ok ()) conns).logs.getLast? = some .shutdown ∧
    (∀ e, LogEvent.shutdownWithError e ∉ (mainRun cfg (.ok ()) conns).logs) := by
  refine ⟨rfl, ?_, rfl, ?_, ?_⟩
  · intro e h
    simp [handleConn, h]
  · show (LogEvent.starting cfg :: (_ ++ [LogEvent.shutdown])).getLast? = some .shutdown
    rw [← List.cons_append, List.getLast?_concat]
  · intro e hx
    simp [mainRun, List.mem_flatMap] at hx
    rcases hx with ⟨c2, _, h⟩
    exact handleConn_no_shutdown_err cfg c2 e h

/-- Example accepted connection with a known peer address, running in the
environment envOkEx. -/
def inboundEx : Inbound :=
  { peerAddr := .ok "10.0.0.1:5555", sock := SockState.fresh, env := envOkEx }

/-- C3 witness: a concrete session whose copy fails surfaces the error as a
disconnectedWithError log line while still yielding Ok to the stream. -/
theorem session_error_containment_witness :
    (handleConn cfgEx inboundEx).2 = .ok () ∧
    LogEvent.disconnectedWithError "connection reset" "10.0.0.1:5555" ∈
      (handleConn cfgEx inboundEx).1 := by
  have h := session_error_containment cfgEx inboundEx []
  exact ⟨h.1, h.2.1 "connection reset" rfl⟩

/-- C8 counterexample: when peer address retrieval fails the code attaches
the sentinel string with angle brackets, which differs from the bare word
the claim names. -/
theorem peer_sentinel_counterexample :
    peer (.error "not connected") = "<unknown>" ∧
    peer (.error "not connected") ≠ "unknown" := by
  refine ⟨rfl, ?_⟩
  decide

/-- C8 amended: the address attached to the log lines of an accepted
connection is the negotiated peer address when retrieval succeeds and the
sentinel "<unknown>" when retrieval fails; a retrieval failure never aborts
the session, which is handled identically with the sentinel as address. -/
theorem peer_address_logging (cfg : Opt) (c : Inbound) :
    (∀ a, c.peerAddr = .ok a → peer c.peerAddr = a) ∧
    (∀ e, c.peerAddr = .error e → peer c.peerAddr = "<unknown>") ∧
    (handleConn cfg c).1.head? = some (.connected (peer c.peerAddr)) ∧
    (handleConn cfg c).2 = .ok () := by
  refine ⟨?_, ?_, rfl, rfl⟩
  · intro a h
    simp [peer, h]
  · intro e h
    simp [peer, h]

/-- Example accepted connection whose peer address retrieval failed. -/
def inboundNoAddrEx : Inbound :=
  { peerAddr := .error "ENOTCONN", sock := SockState.fresh, env := envOkEx }

/-- C8 amended witness: a concrete connection whose peer address retrieval
fails is logged under the sentinel and still handled. -/
theorem peer_address_logging_witness :
    peer inboundNoAddrEx.peerAddr = "<unknown>" ∧
    (handleConn cfgEx inboundNoAddrEx).1.head? = some (.connected "<unknown>") := by
  have h := peer_address_logging cfgEx inboundNoAddrEx
  exact ⟨h.2.1 "ENOTCONN" rfl, h.2.2.1⟩

/-- C4: with no setsockopt faults, a session applies the same process-wide
configuration to both of its sockets: keepalive is disabled when the
configured interval is 0 and enabled with exactly that interval otherwise,
and TCP_NODELAY is set to the configured flag, on the inbound and the
outbound socket alike. -/
theorem sockopt_applies_config (s : SockState) (cfg : Opt) (env : SessionEnv)
    (hs : env.srcFaults = SockFaults.ok) (hd : env.dstFaults = SockFaults.ok)
    (hc : env.connect = .ok ()) :
    (fwd s cfg env).srcSock.kaSet = some (keepalive cfg.keepalive) ∧
    (fwd s cfg env).srcSock.ndSet = some cfg.nodelay ∧
    (fwd s cfg env).dstSock =
      some { kaSet := some (keepalive cfg.keepalive), ndSet := some cfg.nodelay } ∧
    (cfg.keepalive = 0 → keepalive cfg.keepalive = none) ∧
    (cfg.keepalive ≠ 0 → keepalive cfg.keepalive = some cfg.keepalive) := by
  refine ⟨?_, ?_, ?_, ?_, ?_⟩
  · simp [fwd, hc, hs, sockopt, setKeepalive, setNodelay, SockFaults.ok]
  · simp [fwd, hc, hs, sockopt, setKeepalive, setNodelay, SockFaults.ok]
  · simp [fwd, hc, hd, sockopt, setKeepalive, setNodelay, SockFaults.ok,
      SockState.fresh]
  · intro h
    simp [keepalive, h]
  · intro h
    cases hk : cfg.keepalive
    · exact absurd hk h
    · simp [keepalive, hk]

/-- C4 witness: nodelay true with keepalive 0 yields keepalive disabled and
NODELAY enabled on both sockets of the concrete session. -/
theorem sockopt_applies_config_witness :
    (fwd SockState.fresh cfgEx envOkEx).srcSock.kaSet = some none ∧
    (fwd SockState.fresh cfgEx envOkEx).srcSock.ndSet = some true ∧
    (fwd SockState.fresh cfgEx envOkEx).dstSock =
      some { kaSet := some none, ndSet := some true } := by
  have h := sockopt_applies_config SockState.fresh cfgEx envOkEx rfl rfl rfl
  exact ⟨h.1, h.2.1, h.2.2.1⟩

/-- The same session environment with the setsockopt faults removed. -/
def SessionEnv.noFaults (env : SessionEnv) : SessionEnv :=
  { env with srcFaults := SockFaults.ok, dstFaults := SockFaults.ok }

/-- C5: a failure to set either socket option on either connection is
logged as a sockoptError event and otherwise ignored: the session result
and the created copies are exactly those of the fault-free run, so the
fault never aborts the session and never appears in its result. -/
theorem sockopt_failure_ignored (s : SockState) (cfg : Opt) (env : SessionEnv) :
    (fwd s cfg env).result = (fwd s cfg env.noFaults).result ∧
    (fwd s cfg env).copies = (fwd s cfg env.noFaults).copies ∧
    (∀ e, env.srcFaults.kaErr = some e →
      LogEvent.sockoptError e ∈ (fwd s cfg env).logs) ∧
    (∀ e, env.srcFaults.ndErr = some e →
      LogEvent.sockoptError e ∈ (fwd s cfg env).logs) ∧
    (∀ e, env.connect = .ok () → env.dstFaults.kaErr = some e →
      LogEvent.sockoptError e ∈ (fwd s cfg env).logs) ∧
    (∀ e, env.connect = .ok () → env.dstFaults.ndErr = some e →
      LogEvent.sockoptError e ∈ (fwd s cfg env).logs) := by
  refine ⟨?_, ?_, ?_, ?_, ?_, ?_⟩
  · cases hc : env.connect <;>
      simp [fwd, hc, SessionEnv.firstOutcome, SessionEnv.noFaults]
  · cases hc : env.connect <;> simp [fwd, hc, SessionEnv.noFaults]
  · intro e h
    cases hc : env.connect <;>
      simp [fwd, hc, sockopt, setKeepalive, setNodelay, logIfErr, h]
  · intro e h
    cases hc : env.connect <;> cases hk : env.srcFaults.kaErr <;>
      simp [fwd, hc, sockopt, setKeepalive, setNodelay, logIfErr, h, hk]
  · intro e hc h
    simp [fwd, hc, sockopt, setKeepalive, setNodelay, logIfErr, h]
  · intro e hc h
    cases hk : env.dstFaults.kaErr <;>
      simp [fwd, hc, sockopt, setKeepalive, setNodelay, logIfErr, h, hk]

/-- Example session environment in which three of the four setsockopt calls
fail while the connect and both copies succeed. -/
def envFaultEx : SessionEnv :=
  { srcFaults := { kaErr := some "EPERM", ndErr := none },
    connect := .ok (),
    dstFaults := { kaErr := none, ndErr := some "EINVAL" },
    upOutcome := .ok 3, downOutcome := .ok 4, first := .down }

/-- C5 witness: concrete setsockopt failures are logged and leave the
session result identical to the fault-free run. -/
theorem sockopt_failure_ignored_witness :
    (fwd SockState.fresh cfgEx envFaultEx).result =
      (fwd SockState.fresh cfgEx envFaultEx.noFaults).result ∧
    LogEvent.sockoptError "EPERM" ∈ (fwd SockState.fresh cfgEx envFaultEx).logs ∧
    LogEvent.sockoptError "EINVAL" ∈ (fwd SockState.fresh cfgEx envFaultEx).logs := by
  have h := sockopt_failure_ignored SockState.fresh cfgEx envFaultEx
  exact ⟨h.1, h.2.2.1 "EPERM" rfl, h.2.2.2.2.2 "EINVAL" rfl rfl⟩

/-- C9: with the flag and the argument absent the parsed configuration has
nodelay false and keepalive 30; any supplied non-negative keepalive value
is accepted as given, and the value 0 means keepalive disabled. -/
theorem opt_defaults (s d : Addr) :
    (optFromArgs s d false none).nodelay = false ∧
    (optFromArgs s d false none).keepalive = 30 ∧
    (∀ k, (optFromArgs s d false (some k)).keepalive = k) ∧
    keepalive 0 = none ∧
    (∀ k, k ≠ 0 → keepalive k = some k) := by
  refine ⟨rfl, rfl, fun k => rfl, rfl, ?_⟩
  intro k hk
  cases k
  · exact absurd rfl hk
  · simp [keepalive]

/-- C9 witness: concrete defaults and keepalive interpretation. -/
theorem opt_defaults_witness :
    (optFromArgs "0.0.0.0:1" "0.0.0.0:2" false none).nodelay = false ∧
    (optFromArgs "0.0.0.0:1" "0.0.0.0:2" false none).keepalive = 30 ∧
    keepalive 0 = none ∧
    keepalive 7 = some 7 := by
  have h := opt_defaults "0.0.0.0:1" "0.0.0.0:2"
  exact ⟨h.1, h.2.1, h.2.2.2.1, h.2.2.2.2 7 (by decide)⟩

/-- C10: the two option applications inside sockopt are independent:
nodelay is applied whenever its own call succeeds, even when the keepalive
call has failed, and keepalive is applied whenever its own call succeeds,
regardless of the nodelay fault; when both calls fail the keepalive
failure is logged before the nodelay failure, so the keepalive failure is
handled before nodelay is attempted. -/
theorem sockopt_options_independent (s : SockState) (cfg : Opt) (f : SockFaults) :
    (f.ndErr = none → (sockopt s cfg f).1.ndSet = some cfg.nodelay) ∧
    (f.kaErr = none → (sockopt s cfg f).1.kaSet = some (keepalive cfg.keepalive)) ∧
    (∀ e1 e2, f.kaErr = some e1 → f.ndErr = some e2 →
      (sockopt s cfg f).2 = [.sockoptError e1, .sockoptError e2]) := by
  refine ⟨?_, ?_, ?_⟩
  · intro h
    cases hk : f.kaErr <;> simp [sockopt, setKeepalive, setNodelay, h, hk]
  · intro h
    cases hn : f.ndErr <;> simp [sockopt, setKeepalive, setNodelay, h, hn]
  · intro e1 e2 h1 h2
    simp [sockopt, setKeepalive, setNodelay, logIfErr, h1, h2]

/-- C10 witness: with a failing keepalive call, nodelay is still applied;
with both calls failing, both errors are logged in call order. -/
theorem sockopt_options_independent_witness :
    (sockopt SockState.fresh cfgEx { kaErr := some "EPERM", ndErr := none }).1.ndSet
      = some true ∧
    (sockopt SockState.fresh cfgEx { kaErr := some "EPERM", ndErr := some "EINVAL" }).2
      = [.sockoptError "EPERM", .sockoptError "EINVAL"] := by
  refine ⟨?_, ?_⟩
  · exact (sockopt_options_independent SockState.fresh cfgEx
      { kaErr := some "EPERM", ndErr := none }).1 rfl
  · exact (sockopt_options_independent SockState.fresh cfgEx
      { kaErr := some "EPERM", ndErr := some "EINVAL" }).2.2 "EPERM" "EINVAL" rfl rfl
